import Mathlib

/-!
Verification of the technical-debt analysis backend.

This file shallowly embeds the pure computational core of the repository:

* `app/analysis/git_analyzer.py`    — per-file heat scores,
* `app/analysis/debt_calculator.py` — weighted debt score and severity ladder,
* `app/analysis/code_analyzer.py`   — the code-smell detector and the
  non-Python text-heuristic path,
* `app/services/analysis_orchestrator.py` — file-key normalization,
* `app/services/project_service.py` / `app/tasks/analysis_tasks.py` /
  `app/repositories/base.py` — the trigger / run / persistence protocol.

Python floats are modelled as exact rationals `ℚ`; Python `min`/`max` become
`min`/`max` on `ℚ`; dictionary `get` defaults and the `x or default` falsy
fallbacks of the source are reproduced explicitly.  Source text is represented
by the list of its lines (the result of `str.splitlines`), since every use in
the embedded functions is through `splitlines`.
-/

namespace TechDebt

/-! ## Git history analyzer (`app/analysis/git_analyzer.py`) -/

/-- Per-file accumulator built by `GitHistoryAnalyzer.analyze` while walking
commits: change count, number of distinct authors, added/deleted line totals,
and the signed age in days of the latest modification (`none` models a missing
`last_modified`). -/
structure HeatEntry where
  change_count : ℕ
  author_count : ℕ
  added_lines : ℕ
  deleted_lines : ℕ
  days_since : Option ℤ
  deriving Repr

/-- The sub-score breakdown stored under `score_breakdown` by
`_calculate_heat_scores`. -/
structure HeatScoreBreakdown where
  change_score : ℚ
  churn_score : ℚ
  author_diversity : ℚ
  recency_score : ℚ
  deriving Repr, DecidableEq

/-- The per-file value produced by `GitHistoryAnalyzer._calculate_heat_scores`. -/
structure GitHeatMetrics where
  heat_score : ℚ
  change_count : ℕ
  author_count : ℕ
  churn : ℕ
  score_breakdown : HeatScoreBreakdown
  deriving Repr, DecidableEq

/-- `GitHistoryAnalyzer._calculate_heat_scores`, lines 68–102 of
`app/analysis/git_analyzer.py`, specialized to one file's accumulator. -/
def calculateHeatScore (e : HeatEntry) : GitHeatMetrics :=
  let change_score : ℚ := min ((e.change_count : ℚ) / 5) 1
  let churn : ℕ := e.added_lines + e.deleted_lines
  let churn_score : ℚ := min ((churn : ℚ) / 400) 1
  let author_diversity : ℚ := min ((e.author_count : ℚ) / 4) 1
  let recency_score : ℚ :=
    match e.days_since with
    | none => 0
    | some d =>
        let age_days : ℤ := max 0 d
        if age_days ≤ 7 then 1 else max 0 (1 - (age_days : ℚ) / 180)
  let heat_score : ℚ :=
    min 1 (0.35 * change_score + 0.3 * churn_score
      + 0.2 * author_diversity + 0.15 * recency_score)
  { heat_score := heat_score
    change_count := e.change_count
    author_count := e.author_count
    churn := churn
    score_breakdown :=
      { change_score := change_score
        churn_score := churn_score
        author_diversity := author_diversity
        recency_score := recency_score } }

/-! ## Debt calculator (`app/analysis/debt_calculator.py`) -/

/-- The fields of a heat-metrics dictionary value that the component
functions of `TechnicalDebtCalculator` read (each via `.get` with default `0`
and an `or 0` falsy fallback, so a missing file is the all-zero record). -/
structure HeatInput where
  heat_score : ℚ
  change_count : ℕ
  churn : ℕ
  deriving Repr

/-- The fields of a complexity-metrics dictionary value that
`TechnicalDebtCalculator` reads.  The `or`-fallbacks of the source
(`maintainability_index or 100`, `max_complexity or avg_complexity`) are
applied inside the component functions, exactly as in the source. -/
structure ComplexityInput where
  avg_complexity : ℚ
  max_complexity : ℚ
  maintainability_index : ℚ
  lines_of_code : ℕ
  function_count : ℕ
  comment_density : ℚ
  smell_score : ℚ
  smell_flags : List String
  longest_line : ℕ
  deriving Repr

/-- `TechnicalDebtCalculator._heat_component` (lines 59–64):
`max(base, 0.25·change_boost + 0.75·base + 0.15·churn_boost)`. -/
def heatComponent (m : HeatInput) : ℚ :=
  let base_score := m.heat_score
  let change_boost := min ((m.change_count : ℚ) / 6) 1
  let churn_boost := min ((m.churn : ℚ) / 500) 1
  max base_score (0.25 * change_boost + 0.75 * base_score + 0.15 * churn_boost)

/-- `TechnicalDebtCalculator._complexity_component` (lines 66–70); the Python
`max_complexity or complexity` falsy fallback becomes a zero test. -/
def complexityComponent (m : ComplexityInput) : ℚ :=
  let complexity := m.avg_complexity
  let max_complexity := if m.max_complexity = 0 then complexity else m.max_complexity
  min (max_complexity / 8) 1

/-- `TechnicalDebtCalculator._maintainability_component` (lines 72–74); the
Python `mi or 100` falsy fallback becomes a zero test. -/
def maintainabilityComponent (m : ComplexityInput) : ℚ :=
  let mi := if m.maintainability_index = 0 then 100 else m.maintainability_index
  min (max ((100 - mi) / 60) 0) 1

/-- `TechnicalDebtCalculator._size_component` (lines 76–81). -/
def sizeComponent (m : ComplexityInput) : ℚ :=
  let loc_component := min ((m.lines_of_code : ℚ) / 600) 1
  let function_component := min ((m.function_count : ℚ) / 30) 1
  max loc_component function_component

/-- `TechnicalDebtCalculator._comment_component` (lines 83–88). -/
def commentComponent (m : ComplexityInput) : ℚ :=
  let density := m.comment_density
  if 0.35 ≤ density then 0
  else min ((0.35 - density) / 0.35) 1

/-- `TechnicalDebtCalculator._smell_component` (lines 90–97). -/
def smellComponent (m : ComplexityInput) : ℚ :=
  let score := m.smell_score
  let penalty := min ((m.smell_flags.length : ℚ) / 4) 1
  let combined := max score penalty
  let combined2 := if 220 ≤ m.longest_line then min 1 (combined + 0.2) else combined
  min 1 combined2

/-- The weighted sum of `TechnicalDebtCalculator.calculate_debt_score`
(lines 25–32). -/
def debtScore (h : HeatInput) (c : ComplexityInput) : ℚ :=
  min 1 (heatComponent h * 0.3
    + complexityComponent c * 0.2
    + maintainabilityComponent c * 0.15
    + sizeComponent c * 0.1
    + commentComponent c * 0.05
    + smellComponent c * 0.2)

/-- `TechnicalDebtCalculator._classify_severity` (lines 99–107). -/
def classifySeverity (score : ℚ) : String :=
  if 0.25 ≤ score then "critical"
  else if 0.15 ≤ score then "high"
  else if 0.05 ≤ score then "medium"
  else "low"

/-! ## Code smell detector (`app/analysis/code_analyzer.py`) -/

/-- One entry of the `complexity_results` list handed to
`_detect_code_smells` (a radon block result): its complexity, and its
`lineno` / `endline` attributes (`none` models `None`). -/
structure CCResult where
  name : String
  complexity : ℚ
  lineno : Option ℕ
  endline : Option ℕ
  deriving Repr

/-- The output of `_analyze_ast_smells`, abstracted to what
`_detect_code_smells` consumes: the four evidence lists are kept as their
lengths (only `len` and truthiness of the lists are read there). -/
structure AstSmells where
  max_nesting_depth : ℕ
  deeply_nested_functions : ℕ
  long_parameter_functions : ℕ
  complex_conditionals : ℕ
  uninformative_identifiers : ℕ
  deriving Repr

/-- The function length computed at lines 156–158: `end - start + 1` when both
line attributes are truthy (not `None`, not `0`) and `end ≥ start`, else `0`. -/
def funcLength (r : CCResult) : ℕ :=
  match r.lineno, r.endline with
  | some s, some e => if s ≠ 0 ∧ e ≠ 0 ∧ s ≤ e then e - s + 1 else 0
  | _, _ => 0

/-- `max((len(line) for line in lines), default=0)` (line 149). -/
def longestLine (lines : List String) : ℕ :=
  (lines.map String.length).foldr max 0

/-- Number of lines strictly longer than the 120-character threshold
(line 148). -/
def longLineCount (lines : List String) : ℕ :=
  (lines.filter fun line => 120 < line.length).length

/-- Number of blocks with complexity ≥ 12 (lines 161–167). -/
def highComplexityCount (rs : List CCResult) : ℕ :=
  (rs.filter fun r => (12 : ℚ) ≤ r.complexity).length

/-- Number of blocks spanning ≥ 80 lines (lines 169–175). -/
def longFunctionCount (rs : List CCResult) : ℕ :=
  (rs.filter fun r => 80 ≤ funcLength r).length

/-- The flag guard of line 180: `longest_line >= extreme_line_threshold`
with `extreme_line_threshold = 180`. -/
def extremeLineFlagged (longest : ℕ) : Bool :=
  180 ≤ longest

/-- The score increment of lines 205–206: `+0.15` when
`longest_line > extreme_line_threshold` (strict), else nothing. -/
def extremeLineIncrement (longest : ℕ) : ℚ :=
  if 180 < longest then 0.15 else 0

/-- The ordered flag list assembled at lines 179–195. -/
def smellFlags (lines : List String) (rs : List CCResult) (ast : AstSmells) :
    List String :=
  (if extremeLineFlagged (longestLine lines) then ["Lines exceeding 180 characters"] else [])
  ++ (if 5 ≤ longLineCount lines then ["Multiple overlength lines"] else [])
  ++ (if highComplexityCount rs ≠ 0 then ["Functions with very high cyclomatic complexity"] else [])
  ++ (if longFunctionCount rs ≠ 0 then ["Long methods (>80 lines) detected"] else [])
  ++ (if ast.deeply_nested_functions ≠ 0 then ["Deeply nested control flow"] else [])
  ++ (if ast.long_parameter_functions ≠ 0 then ["Functions with too many parameters"] else [])
  ++ (if ast.complex_conditionals ≠ 0 then ["Complex boolean expressions"] else [])
  ++ (if ast.uninformative_identifiers ≠ 0 then ["Uninformative identifier names"] else [])

/-- The accumulated sum of capped terms at lines 197–206, before the first
clamp of line 207. -/
def smellScoreBase (lines : List String) (rs : List CCResult) (ast : AstSmells) : ℚ :=
  min ((longLineCount lines : ℚ) / 30) 0.35
  + min ((highComplexityCount rs : ℚ) / 5) 0.4
  + min ((longFunctionCount rs : ℚ) / 4) 0.35
  + min ((ast.deeply_nested_functions : ℚ) / 3) 0.4
  + min ((ast.long_parameter_functions : ℚ) / 4) 0.3
  + min ((ast.complex_conditionals : ℚ) / 6) 0.25
  + min ((ast.uninformative_identifiers : ℚ) / 8) 0.2
  + extremeLineIncrement (longestLine lines)

/-- The minified/generated heuristic of lines 211–215. -/
def minifiedCandidate (lines : List String) : Bool :=
  decide (400 ≤ longestLine lines
    ∨ (lines.length ≤ 5 ∧ 200 ≤ longestLine lines)
    ∨ (lines.length = 1 ∧ 150 ≤ longestLine lines))

/-- The result fields of `_detect_code_smells` needed here. -/
structure SmellInfo where
  smell_score : ℚ
  smell_flags : List String
  longest_line : ℕ
  long_line_count : ℕ
  long_function_count : ℕ
  max_nesting_depth : ℕ
  is_minified_candidate : Bool
  deriving Repr

/-- `CodeComplexityAnalyzer._detect_code_smells` (lines 144–244),
parameterized over the `_analyze_ast_smells` output.  The score is the exact
clamp sequence of lines 197–218: clamp after the capped-term sum, clamp after
the nesting-depth addition, clamp after the minified bonus. -/
def detectCodeSmells (lines : List String) (rs : List CCResult) (ast : AstSmells) :
    SmellInfo :=
  let longest := longestLine lines
  let flags := smellFlags lines rs ast
  let score1 := min 1 (smellScoreBase lines rs ast)
  let score2 := min 1 (score1 + min ((ast.max_nesting_depth : ℚ) / 20) 0.2)
  let minified := minifiedCandidate lines
  let addMinified := minified && !(flags.contains "Potentially minified or generated asset")
  let flags2 := if addMinified then flags ++ ["Potentially minified or generated asset"] else flags
  let score3 := if addMinified then min 1 (score2 + 0.35) else score2
  { smell_score := score3
    smell_flags := flags2
    longest_line := longest
    long_line_count := longLineCount lines
    long_function_count := longFunctionCount rs
    max_nesting_depth := ast.max_nesting_depth
    is_minified_candidate := minified }

/-! ## Non-Python text-heuristic path (`_analyze_non_python`, lines 401–444) -/

/-- Line 402: `lines = source_code.splitlines() or ['']` — an empty file is
replaced by one empty line.  Input is the `splitlines` decomposition of the
source text (empty source ↦ `[]`). -/
def splitlinesOrBlank (srcLines : List String) : List String :=
  if srcLines = [] then [""] else srcLines

/-- Line 403: `loc = len(lines)` on the non-Python path. -/
def nonPythonLoc (srcLines : List String) : ℕ :=
  (splitlinesOrBlank srcLines).length

/-- The fields of `radon.raw.analyze(source_code)` read by the Python path. -/
structure RadonRaw where
  loc : ℕ
  lloc : ℕ
  comments : ℕ
  deriving Repr

/-- Line 53 of `app/analysis/code_analyzer.py`: the Python path stores
`raw_metrics.loc` verbatim as `lines_of_code`. -/
def pythonLinesOfCode (raw : RadonRaw) : ℕ :=
  raw.loc

/-! ## File-key normalization (`AnalysisOrchestrator._normalize_key`,
`app/services/analysis_orchestrator.py` lines 104–110).  Keys are modelled at
the character level; `isNt` is the `os.name == 'nt'` test. -/

/-- `value.replace('\x5c\x5c', '/')` — every backslash becomes a slash. -/
def replaceBackslashes (s : List Char) : List Char :=
  s.map fun c => if c = '\\' then '/' else c

/-- `.rstrip('/')` — strip every trailing slash. -/
def rstripSlashes (s : List Char) : List Char :=
  (s.reverse.dropWhile fun c => c = '/').reverse

/-- `AnalysisOrchestrator._normalize_key`: empty input maps to the empty key;
otherwise replace backslashes, strip trailing slashes, and lowercase on
Windows. -/
def normalizeKey (isNt : Bool) (value : List Char) : List Char :=
  if value = [] then []
  else
    let normalized := rstripSlashes (replaceBackslashes value)
    if isNt then normalized.map Char.toLower else normalized

/-! ## Trigger / run / persistence protocol
(`app/services/project_service.py`, `app/tasks/analysis_tasks.py`,
`app/repositories/base.py`) -/

/-- The columns of a `projects` row that the protocol touches
(`app/models/project.py`). -/
structure ProjectRec where
  id : ℕ
  status : String
  current_analysis_id : Option String
  last_analysis_id : Option String
  deriving Repr, DecidableEq

/-- Python truthiness of an optional string column (`None` and `''` are
falsy). -/
def strTruthy : Option String → Bool
  | none => false
  | some s => s ≠ ""

/-- Outcome of `ProjectService.trigger_analysis`: the returned task id, or one
of the two `RuntimeError` signals raised inside the locked transaction. -/
inductive TriggerOutcome where
  | ok (task_id : String)
  | projectNotFound
  | alreadyAnalyzing
  deriving Repr, DecidableEq

/-- The observable effect of one `trigger_analysis` call: its outcome, the
project row afterwards, the task ids enqueued by `apply_async`, and the task
ids revoked. -/
structure TriggerResult where
  outcome : TriggerOutcome
  project : Option ProjectRec
  enqueued : List String
  revoked : List String
  deriving Repr, DecidableEq

/-- `ProjectService.trigger_analysis` (lines 27–83 of
`app/services/project_service.py`), given the current project row (`none`
when the id does not exist) and the freshly generated task id.  The task is
enqueued first; then, under the row lock: a missing project revokes and
raises `project_not_found`; a truthy `current_analysis_id` *combined with*
`status == 'analyzing'` revokes and raises `already_analyzing`; otherwise the
row gets `current_analysis_id := task_id` and `status := 'queued'`. -/
def triggerAnalysis (proj : Option ProjectRec) (task_id : String) : TriggerResult :=
  match proj with
  | none =>
      { outcome := .projectNotFound
        project := none
        enqueued := [task_id]
        revoked := [task_id] }
  | some p =>
      if strTruthy p.current_analysis_id ∧ p.status = "analyzing" then
        { outcome := .alreadyAnalyzing
          project := some p
          enqueued := [task_id]
          revoked := [task_id] }
      else
        { outcome := .ok task_id
          project := some { p with current_analysis_id := some task_id, status := "queued" }
          enqueued := [task_id]
          revoked := [] }

/-- A `technical_debts` row, restricted to the columns the task writes
(`app/models/debt.py`). -/
structure DebtRow where
  project_id : ℕ
  file_path : String
  severity : String
  estimated_effort : ℕ
  deriving Repr, DecidableEq

/-- `BaseRepository.create` (lines 17–22 of `app/repositories/base.py`):
construct a new model instance, `add` it and commit — an unconditional
insert. -/
def repositoryCreate (table : List DebtRow) (item : DebtRow) : List DebtRow :=
  table ++ [item]

/-- Number of stored debt rows for one `(project, FileKey)` pair. -/
def debtRowsFor (table : List DebtRow) (pid : ℕ) (fp : String) : ℕ :=
  (table.filter fun r => r.project_id = pid ∧ r.file_path = fp).length

/-- The persistence loop of `analyze_project_task` (lines 76–93): one
`BaseRepository.create` per debt record. -/
def persistRun (table : List DebtRow) (items : List DebtRow) : List DebtRow :=
  items.foldl repositoryCreate table

/-- The terminal payload returned by `analyze_project_task`. -/
structure TaskResult where
  status : String
  message : Option String
  deriving Repr, DecidableEq

/-- `analyze_project_task` (lines 33–146 of `app/tasks/analysis_tasks.py`),
parameterized over the outcome of `asyncio.run(orchestrator.analyze_project
(target))` — `.error msg` models an exception raised there, which is the only
uncaught point inside the outer `try` (the marking, progress, per-row
persistence and completion blocks each swallow their own exceptions).  The
task first marks the row `analyzing` with `current_analysis_id := task_id`;
on success it persists every record and resets the row to `idle` with
`current_analysis_id := None`; an orchestration exception jumps to the outer
handler (lines 143–144), which returns an error payload without touching the
row again. -/
def analyzeProjectTask (task_id : String) (p : ProjectRec)
    (orch : Except String (List DebtRow)) (table : List DebtRow) :
    TaskResult × ProjectRec × List DebtRow :=
  let marked : ProjectRec :=
    { p with current_analysis_id := some task_id, status := "analyzing" }
  match orch with
  | .error msg => (⟨"error", some msg⟩, marked, table)
  | .ok items =>
      let table2 := persistRun table items
      let finished : ProjectRec :=
        { marked with
            current_analysis_id := none
            last_analysis_id := some task_id
            status := "idle" }
      (⟨"completed", none⟩, finished, table2)

/-! ## Shared helper lemmas -/

/-- Clamping a nonnegative rational at `1` lands in `[0, 1]`. -/
theorem min_one_mem (x : ℚ) (hx : 0 ≤ x) : 0 ≤ min 1 x ∧ min 1 x ≤ 1 :=
  ⟨le_min zero_le_one hx, min_le_left 1 x⟩

/-- An independently capped term `min (n / d) cap` is nonnegative. -/
theorem capped_term_nonneg (n : ℕ) (d cap : ℚ) (hd : 0 ≤ d) (hcap : 0 ≤ cap) :
    0 ≤ min ((n : ℚ) / d) cap :=
  le_min (div_nonneg (Nat.cast_nonneg n) hd) hcap

/-- The accumulated capped-term sum of lines 197–206 is nonnegative. -/
theorem smellScoreBase_nonneg (lines : List String) (rs : List CCResult)
    (ast : AstSmells) : 0 ≤ smellScoreBase lines rs ast := by
  unfold smellScoreBase
  have h1 := capped_term_nonneg (longLineCount lines) 30 0.35 (by norm_num) (by norm_num)
  have h2 := capped_term_nonneg (highComplexityCount rs) 5 0.4 (by norm_num) (by norm_num)
  have h3 := capped_term_nonneg (longFunctionCount rs) 4 0.35 (by norm_num) (by norm_num)
  have h4 := capped_term_nonneg ast.deeply_nested_functions 3 0.4 (by norm_num) (by norm_num)
  have h5 := capped_term_nonneg ast.long_parameter_functions 4 0.3 (by norm_num) (by norm_num)
  have h6 := capped_term_nonneg ast.complex_conditionals 6 0.25 (by norm_num) (by norm_num)
  have h7 := capped_term_nonneg ast.uninformative_identifiers 8 0.2 (by norm_num) (by norm_num)
  have h8 : 0 ≤ extremeLineIncrement (longestLine lines) := by
    unfold extremeLineIncrement
    split_ifs <;> norm_num
  linarith

/-- `persistRun` is iterated insertion: the final table is the old rows
followed by the new rows. -/
theorem persistRun_eq_append (table items : List DebtRow) :
    persistRun table items = table ++ items := by
  induction items generalizing table with
  | nil => simp [persistRun]
  | cons r rest ih =>
      show persistRun (repositoryCreate table r) rest = table ++ r :: rest
      rw [ih, repositoryCreate]
      simp

/-- `.rstrip('/')` ignores one more trailing slash. -/
theorem rstripSlashes_append_slash (s : List Char) :
    rstripSlashes (s ++ ['/']) = rstripSlashes s := by
  unfold rstripSlashes
  rw [List.reverse_append]
  simp [List.dropWhile]

/-- Turning every slash into a backslash is undone by the backslash
replacement of `_normalize_key`. -/
theorem replaceBackslashes_toBackslash (s : List Char) :
    replaceBackslashes (s.map fun c => if c = '/' then '\\' else c)
      = replaceBackslashes s := by
  unfold replaceBackslashes
  induction s with
  | nil => rfl
  | cons c cs ih =>
      simp only [List.map_cons, List.map_map] at *
      rw [List.cons.injEq] at *
      refine ⟨?_, ih⟩
      by_cases h : c = '/'
      · simp [h]
      · by_cases h2 : c = '\\' <;> simp [Function.comp, h, h2]

/-- The severity ladder of `_classify_severity`, characterized by the
threshold intervals. -/
theorem classifySeverity_ladder (s : ℚ) :
    (classifySeverity s = "critical" ↔ 0.25 ≤ s)
    ∧ (classifySeverity s = "high" ↔ 0.15 ≤ s ∧ s < 0.25)
    ∧ (classifySeverity s = "medium" ↔ 0.05 ≤ s ∧ s < 0.15)
    ∧ (classifySeverity s = "low" ↔ s < 0.05) := by
  unfold classifySeverity
  split_ifs with h1 h2 h3 <;>
    refine ⟨?_, ?_, ?_, ?_⟩ <;>
    simp_all <;>
    intros <;>
    linarith

/-- The heat component is at least the raw heat score. -/
theorem heatComponent_nonneg (m : HeatInput) (h : 0 ≤ m.heat_score) :
    0 ≤ heatComponent m := by
  simp only [heatComponent]
  exact le_trans h (le_max_left _ _)

/-- The heat component never exceeds `0.25 + 0.75 + 0.15 = 1.15` when the raw
heat score is in `[0, 1]`. -/
theorem heatComponent_le (m : HeatInput) (h1 : m.heat_score ≤ 1) :
    heatComponent m ≤ 23 / 20 := by
  simp only [heatComponent]
  apply max_le
  · linarith
  · have hc := min_le_right ((m.change_count : ℚ) / 6) 1
    have hch := min_le_right ((m.churn : ℚ) / 500) 1
    linarith

/-- The complexity component is in `[0, 1]` for nonnegative complexities. -/
theorem complexityComponent_mem (m : ComplexityInput)
    (ha : 0 ≤ m.avg_complexity) (hm : 0 ≤ m.max_complexity) :
    0 ≤ complexityComponent m ∧ complexityComponent m ≤ 1 := by
  simp only [complexityComponent]
  refine ⟨le_min ?_ zero_le_one, min_le_right _ _⟩
  split_ifs with h
  · exact div_nonneg ha (by norm_num)
  · exact div_nonneg hm (by norm_num)

/-- The maintainability component is always in `[0, 1]`. -/
theorem maintainabilityComponent_mem (m : ComplexityInput) :
    0 ≤ maintainabilityComponent m ∧ maintainabilityComponent m ≤ 1 := by
  simp only [maintainabilityComponent]
  exact ⟨le_min (le_max_right _ _) zero_le_one, min_le_right _ _⟩

/-- The size component is always in `[0, 1]`. -/
theorem sizeComponent_mem (m : ComplexityInput) :
    0 ≤ sizeComponent m ∧ sizeComponent m ≤ 1 := by
  simp only [sizeComponent]
  constructor
  · exact le_trans (capped_term_nonneg m.lines_of_code 600 1 (by norm_num) zero_le_one)
      (le_max_left _ _)
  · exact max_le (min_le_right _ _) (min_le_right _ _)

/-- The comment component is always in `[0, 1]`. -/
theorem commentComponent_mem (m : ComplexityInput) :
    0 ≤ commentComponent m ∧ commentComponent m ≤ 1 := by
  simp only [commentComponent]
  split_ifs with h
  · norm_num
  · push_neg at h
    refine ⟨le_min (div_nonneg (by linarith) (by norm_num)) zero_le_one, min_le_right _ _⟩

/-- The smell component is always in `[0, 1]`. -/
theorem smellComponent_mem (m : ComplexityInput) :
    0 ≤ smellComponent m ∧ smellComponent m ≤ 1 := by
  simp only [smellComponent]
  have hp : (0 : ℚ) ≤ min ((m.smell_flags.length : ℚ) / 4) 1 :=
    capped_term_nonneg m.smell_flags.length 4 1 (by norm_num) zero_le_one
  have hc : (0 : ℚ) ≤ max m.smell_score (min ((m.smell_flags.length : ℚ) / 4) 1) :=
    le_trans hp (le_max_right _ _)
  split_ifs with h
  · refine ⟨le_min zero_le_one (le_min zero_le_one (by linarith)), min_le_left _ _⟩
  · exact ⟨le_min zero_le_one hc, min_le_left _ _⟩

/-! ## Claim theorems -/

/-- C1 (corrected), counterexample: the claim says Trigger aborts with an
"already in progress" outcome whenever the current-run identity is non-null.
On a project whose `current_analysis_id` is set but whose status is `queued`
(the state a first trigger itself produces), `trigger_analysis` does **not**
abort: it succeeds and overwrites the current-run identity. -/
theorem trigger_queued_current_not_rejected :
    strTruthy (ProjectRec.mk 1 "queued" (some "t0") none).current_analysis_id = true
    ∧ triggerAnalysis (some (ProjectRec.mk 1 "queued" (some "t0") none)) "t1"
      = { outcome := .ok "t1"
          project := some (ProjectRec.mk 1 "queued" (some "t1") none)
          enqueued := ["t1"]
          revoked := [] } := by
  decide

/-- C1 (corrected), amended claim: for every Trigger invocation on an existing
project whose current-run identity is set **and** whose state is `analyzing`,
the operation aborts with the `already_analyzing` conflict outcome, revokes
the task it just enqueued, and leaves the project row unchanged. -/
theorem trigger_conflict_aborts (p : ProjectRec) (task_id : String)
    (hcur : strTruthy p.current_analysis_id = true)
    (hstatus : p.status = "analyzing") :
    triggerAnalysis (some p) task_id
      = { outcome := .alreadyAnalyzing
          project := some p
          enqueued := [task_id]
          revoked := [task_id] } := by
  simp [triggerAnalysis, hcur, hstatus]

/-- Witness for `trigger_conflict_aborts` at a concrete analyzing project. -/
theorem trigger_conflict_aborts_witness :
    triggerAnalysis (some (ProjectRec.mk 1 "analyzing" (some "t0") none)) "t1"
      = { outcome := .alreadyAnalyzing
          project := some (ProjectRec.mk 1 "analyzing" (some "t0") none)
          enqueued := ["t1"]
          revoked := ["t1"] } :=
  trigger_conflict_aborts (ProjectRec.mk 1 "analyzing" (some "t0") none) "t1"
    (by decide) rfl

/-- C2 (code_bug): when the orchestration step raises (here: the
`ValueError` text `analyze_project` raises for an empty target), the task's
outer handler returns an `error` payload — the exception is caught and
reported, as the claim says — but the completion block that would clear the
claim never runs: the project row is left with status `analyzing` and a
non-null `current_analysis_id`, contradicting the claim's second half. -/
theorem run_failure_leaves_project_locked :
    analyzeProjectTask "t1" (ProjectRec.mk 1 "idle" none none)
        (Except.error "project_path or file_path must be provided") []
      = (TaskResult.mk "error" (some "project_path or file_path must be provided"),
         ProjectRec.mk 1 "analyzing" (some "t1") none,
         []) := by
  decide

/-- C3 (corrected), counterexample: persisting a debt record for a
`(project, FileKey)` pair that already has a stored row yields **two** rows
for that pair — `BaseRepository.create` is an unconditional insert, so the
claimed at-most-one invariant fails. -/
theorem repository_create_duplicates_key :
    debtRowsFor
        (repositoryCreate [DebtRow.mk 1 "app/a.py" "high" 3]
          (DebtRow.mk 1 "app/a.py" "low" 2)) 1 "app/a.py" = 2
    ∧ ¬ (debtRowsFor
        (repositoryCreate [DebtRow.mk 1 "app/a.py" "high" 3]
          (DebtRow.mk 1 "app/a.py" "low" 2)) 1 "app/a.py" ≤ 1) := by
  decide

/-- C3 (corrected), amended claim: the Run's persistence loop appends one new
row per produced debt record and never modifies or removes existing rows, so
the stored row count for a `(project, FileKey)` pair grows by the number of
newly persisted records for that pair (records for an already-stored pair
duplicate it rather than overwrite it). -/
theorem run_persistence_appends (table items : List DebtRow) (pid : ℕ)
    (fp : String) :
    persistRun table items = table ++ items
    ∧ debtRowsFor (persistRun table items) pid fp
      = debtRowsFor table pid fp + debtRowsFor items pid fp := by
  refine ⟨persistRun_eq_append table items, ?_⟩
  rw [persistRun_eq_append]
  unfold debtRowsFor
  rw [List.filter_append, List.length_append]

/-- C4 (confirmed): for every heat-metrics and complexity-metrics input with
nonnegative raw scores (the analyzers only produce such values), the debt
score lies in `[0, 1]` and the severity is exactly the fixed threshold
ladder on the debt score: `critical` iff `≥ 0.25`, else `high` iff `≥ 0.15`,
else `medium` iff `≥ 0.05`, else `low`. -/
theorem debt_score_bounds_and_severity (h : HeatInput) (c : ComplexityInput)
    (hh : 0 ≤ h.heat_score) (ha : 0 ≤ c.avg_complexity)
    (hm : 0 ≤ c.max_complexity) :
    (0 ≤ debtScore h c ∧ debtScore h c ≤ 1)
    ∧ (classifySeverity (debtScore h c) = "critical" ↔ 0.25 ≤ debtScore h c)
    ∧ (classifySeverity (debtScore h c) = "high"
        ↔ 0.15 ≤ debtScore h c ∧ debtScore h c < 0.25)
    ∧ (classifySeverity (debtScore h c) = "medium"
        ↔ 0.05 ≤ debtScore h c ∧ debtScore h c < 0.15)
    ∧ (classifySeverity (debtScore h c) = "low" ↔ debtScore h c < 0.05) := by
  obtain ⟨l1, -⟩ := complexityComponent_mem c ha hm
  obtain ⟨l2, -⟩ := maintainabilityComponent_mem c
  obtain ⟨l3, -⟩ := sizeComponent_mem c
  obtain ⟨l4, -⟩ := commentComponent_mem c
  obtain ⟨l5, -⟩ := smellComponent_mem c
  have l0 := heatComponent_nonneg h hh
  obtain ⟨s1, s2, s3, s4⟩ := classifySeverity_ladder (debtScore h c)
  refine ⟨⟨?_, ?_⟩, s1, s2, s3, s4⟩
  · exact le_min zero_le_one (by linarith)
  · exact min_le_left _ _

/-- Witness for `debt_score_bounds_and_severity` at the all-default metrics. -/
theorem debt_score_bounds_and_severity_witness :
    (0 ≤ debtScore (HeatInput.mk 0 0 0) (ComplexityInput.mk 0 0 0 0 0 0 0 [] 0)
      ∧ debtScore (HeatInput.mk 0 0 0) (ComplexityInput.mk 0 0 0 0 0 0 0 [] 0) ≤ 1)
    ∧ (classifySeverity (debtScore (HeatInput.mk 0 0 0)
          (ComplexityInput.mk 0 0 0 0 0 0 0 [] 0)) = "critical"
        ↔ 0.25 ≤ debtScore (HeatInput.mk 0 0 0) (ComplexityInput.mk 0 0 0 0 0 0 0 [] 0))
    ∧ (classifySeverity (debtScore (HeatInput.mk 0 0 0)
          (ComplexityInput.mk 0 0 0 0 0 0 0 [] 0)) = "high"
        ↔ 0.15 ≤ debtScore (HeatInput.mk 0 0 0) (ComplexityInput.mk 0 0 0 0 0 0 0 [] 0)
          ∧ debtScore (HeatInput.mk 0 0 0) (ComplexityInput.mk 0 0 0 0 0 0 0 [] 0) < 0.25)
    ∧ (classifySeverity (debtScore (HeatInput.mk 0 0 0)
          (ComplexityInput.mk 0 0 0 0 0 0 0 [] 0)) = "medium"
        ↔ 0.05 ≤ debtScore (HeatInput.mk 0 0 0) (ComplexityInput.mk 0 0 0 0 0 0 0 [] 0)
          ∧ debtScore (HeatInput.mk 0 0 0) (ComplexityInput.mk 0 0 0 0 0 0 0 [] 0) < 0.15)
    ∧ (classifySeverity (debtScore (HeatInput.mk 0 0 0)
          (ComplexityInput.mk 0 0 0 0 0 0 0 [] 0)) = "low"
        ↔ debtScore (HeatInput.mk 0 0 0) (ComplexityInput.mk 0 0 0 0 0 0 0 [] 0) < 0.05) :=
  debt_score_bounds_and_severity (HeatInput.mk 0 0 0)
    (ComplexityInput.mk 0 0 0 0 0 0 0 [] 0) (le_refl 0) (le_refl 0) (le_refl 0)

/-- C5 (corrected), counterexample: the heat component is **not** normalized
to `[0, 1]`: with raw heat score `1`, change count `6` and churn `500` — all
producible by the history analyzer — `_heat_component` returns
`0.25 + 0.75 + 0.15 = 1.15 > 1`. -/
theorem heat_component_exceeds_one :
    heatComponent (HeatInput.mk 1 6 500) = 23 / 20
    ∧ ¬ heatComponent (HeatInput.mk 1 6 500) ≤ 1 := by
  constructor
  · simp [heatComponent]
    norm_num
  · simp [heatComponent]
    norm_num

/-- C5 (corrected), amended claim: for heat metrics with raw heat score in
`[0, 1]` and complexity metrics with nonnegative complexities, five of the six
components (complexity, maintainability, size, comment, smell) lie in
`[0, 1]`; the heat component is only bounded by `[0, 1.15]` — it can exceed
`1` by up to `0.15` because `_heat_component` takes an uncapped blend. -/
theorem components_normalized (h : HeatInput) (c : ComplexityInput)
    (hh0 : 0 ≤ h.heat_score) (hh1 : h.heat_score ≤ 1)
    (ha : 0 ≤ c.avg_complexity) (hm : 0 ≤ c.max_complexity) :
    (0 ≤ heatComponent h ∧ heatComponent h ≤ 23 / 20)
    ∧ (0 ≤ complexityComponent c ∧ complexityComponent c ≤ 1)
    ∧ (0 ≤ maintainabilityComponent c ∧ maintainabilityComponent c ≤ 1)
    ∧ (0 ≤ sizeComponent c ∧ sizeComponent c ≤ 1)
    ∧ (0 ≤ commentComponent c ∧ commentComponent c ≤ 1)
    ∧ (0 ≤ smellComponent c ∧ smellComponent c ≤ 1) :=
  ⟨⟨heatComponent_nonneg h hh0, heatComponent_le h hh1⟩,
    complexityComponent_mem c ha hm,
    maintainabilityComponent_mem c,
    sizeComponent_mem c,
    commentComponent_mem c,
    smellComponent_mem c⟩

/-- Witness for `components_normalized` at the all-default metrics. -/
theorem components_normalized_witness :
    (0 ≤ heatComponent (HeatInput.mk 0 0 0)
      ∧ heatComponent (HeatInput.mk 0 0 0) ≤ 23 / 20)
    ∧ (0 ≤ complexityComponent (ComplexityInput.mk 0 0 0 0 0 0 0 [] 0)
      ∧ complexityComponent (ComplexityInput.mk 0 0 0 0 0 0 0 [] 0) ≤ 1)
    ∧ (0 ≤ maintainabilityComponent (ComplexityInput.mk 0 0 0 0 0 0 0 [] 0)
      ∧ maintainabilityComponent (ComplexityInput.mk 0 0 0 0 0 0 0 [] 0) ≤ 1)
    ∧ (0 ≤ sizeComponent (ComplexityInput.mk 0 0 0 0 0 0 0 [] 0)
      ∧ sizeComponent (ComplexityInput.mk 0 0 0 0 0 0 0 [] 0) ≤ 1)
    ∧ (0 ≤ commentComponent (ComplexityInput.mk 0 0 0 0 0 0 0 [] 0)
      ∧ commentComponent (ComplexityInput.mk 0 0 0 0 0 0 0 [] 0) ≤ 1)
    ∧ (0 ≤ smellComponent (ComplexityInput.mk 0 0 0 0 0 0 0 [] 0)
      ∧ smellComponent (ComplexityInput.mk 0 0 0 0 0 0 0 [] 0) ≤ 1) :=
  components_normalized (HeatInput.mk 0 0 0) (ComplexityInput.mk 0 0 0 0 0 0 0 [] 0)
    (le_refl 0) (by norm_num) (le_refl 0) (le_refl 0)

/-- C6 (confirmed): for every source text, complexity-result list and AST
metric bundle given to the smell detector, the resulting smell score lies in
`[0, 1]` — the accumulated capped-term sum is clamped at `1` after the base
sum, again after the nesting-depth addition, and again after the
minified/generated bonus. -/
theorem smell_score_bounded (lines : List String) (rs : List CCResult)
    (ast : AstSmells) :
    0 ≤ (detectCodeSmells lines rs ast).smell_score
    ∧ (detectCodeSmells lines rs ast).smell_score ≤ 1 := by
  simp only [detectCodeSmells]
  obtain ⟨b1, b2⟩ := min_one_mem _ (smellScoreBase_nonneg lines rs ast)
  have hn : (0 : ℚ) ≤ min ((ast.max_nesting_depth : ℚ) / 20) 0.2 :=
    capped_term_nonneg ast.max_nesting_depth 20 0.2 (by norm_num) (by norm_num)
  obtain ⟨c1, c2⟩ := min_one_mem
    (min 1 (smellScoreBase lines rs ast) + min ((ast.max_nesting_depth : ℚ) / 20) 0.2)
    (by linarith)
  split_ifs with hmin
  · exact min_one_mem _ (by linarith)
  · exact ⟨c1, c2⟩

/-- C7 (corrected), counterexample: `_normalize_key` does not resolve `..`
segments, so `a/b/../c` keeps its spelling and does **not** normalize to the
same key as `a/c`. -/
theorem normalize_key_dotdot_not_collapsed :
    normalizeKey false ("a/b/../c".data) = "a/b/../c".data
    ∧ normalizeKey false ("a/b/../c".data) ≠ normalizeKey false ("a/c".data) := by
  decide

/-- C7 (corrected), amended claim: key normalization identifies spellings
that differ by separator style or a trailing slash — appending a trailing
slash, or writing the path with backslashes instead of slashes, normalizes to
the same key — but `..` segments are kept verbatim, so `a/b/../c` is a
different key from `a/c`. -/
theorem normalize_key_separator_trailing_equiv (isNt : Bool) (s : List Char) :
    normalizeKey isNt (s ++ ['/']) = normalizeKey isNt s
    ∧ normalizeKey isNt (s.map fun c => if c = '/' then '\\' else c)
      = normalizeKey isNt s := by
  constructor
  · by_cases hs : s = []
    · subst hs
      cases isNt <;> decide
    · have h1 : s ++ ['/'] ≠ [] := by simp
      unfold normalizeKey
      rw [if_neg h1, if_neg hs]
      have h2 : replaceBackslashes (s ++ ['/']) = replaceBackslashes s ++ ['/'] := by
        simp [replaceBackslashes]
      rw [h2, rstripSlashes_append_slash]
  · by_cases hs : s = []
    · subst hs
      rfl
    · have h1 : (s.map fun c => if c = '/' then '\\' else c) ≠ [] := by
        simpa using hs
      unfold normalizeKey
      rw [if_neg h1, if_neg hs, replaceBackslashes_toBackslash]

/-- C8 (corrected), counterexample: for a file with 10 changes, 3 authors,
600 churned lines and a last modification today, the claimed heat score of
`1.0` is wrong — the weighted sum is `0.35·1 + 0.30·1 + 0.20·0.75 + 0.15·1 =
0.95`, so the cap at `1` is not reached. -/
theorem heat_saturation_claim_false :
    (calculateHeatScore (HeatEntry.mk 10 3 600 0 (some 0))).heat_score ≠ 1 := by
  simp only [calculateHeatScore]
  norm_num [min_def, max_def]

/-- C8 (corrected), amended claim: for a file with `change_count = 10`,
3 distinct authors, 600 added+deleted lines and a last modification today,
the change, churn and recency sub-scores saturate at `1`, author diversity is
`0.75`, and the heat score is `min(1, 0.95) = 0.95` — short of the cap. -/
theorem heat_saturation_value :
    calculateHeatScore (HeatEntry.mk 10 3 600 0 (some 0))
      = { heat_score := 19 / 20
          change_count := 10
          author_count := 3
          churn := 600
          score_breakdown :=
            { change_score := 1
              churn_score := 1
              author_diversity := 3 / 4
              recency_score := 1 } } := by
  simp only [calculateHeatScore]
  norm_num [min_def, max_def, GitHeatMetrics.mk.injEq, HeatScoreBreakdown.mk.injEq]

/-- C9 (confirmed): the extreme-line flag fires at a longest line of exactly
180 characters (its guard is `≥ 180`), while the `0.15` score increment does
not (its guard is strictly `> 180`); flag and increment coincide exactly for
longest lines of 181 characters or more. -/
theorem extreme_line_boundary :
    (∀ (lines : List String) (rs : List CCResult) (ast : AstSmells),
      longestLine lines = 180 →
        "Lines exceeding 180 characters" ∈ (detectCodeSmells lines rs ast).smell_flags
        ∧ extremeLineIncrement (longestLine lines) = 0)
    ∧ (∀ n : ℕ,
        (extremeLineFlagged n = true ∧ extremeLineIncrement n = 0.15) ↔ 181 ≤ n) := by
  constructor
  · intro lines rs ast hlen
    constructor
    · have hflag : "Lines exceeding 180 characters" ∈ smellFlags lines rs ast := by
        simp [smellFlags, extremeLineFlagged, hlen]
      simp only [detectCodeSmells]
      split_ifs <;> simp [hflag]
    · rw [hlen]
      decide
  · intro n
    constructor
    · rintro ⟨-, hinc⟩
      by_contra hn
      rw [extremeLineIncrement, if_neg (by omega)] at hinc
      norm_num at hinc
    · intro hn
      refine ⟨?_, ?_⟩
      · simp only [extremeLineFlagged, decide_eq_true_eq]
        omega
      · rw [extremeLineIncrement, if_pos (by omega)]

set_option maxRecDepth 4000 in
/-- Witness for `extreme_line_boundary` at a one-line file whose single line
is exactly 180 characters long. -/
theorem extreme_line_boundary_witness :
    "Lines exceeding 180 characters"
      ∈ (detectCodeSmells [String.mk (List.replicate 180 'x')] []
          (AstSmells.mk 0 0 0 0 0)).smell_flags
    ∧ extremeLineIncrement
        (longestLine [String.mk (List.replicate 180 'x')]) = 0 :=
  extreme_line_boundary.1 [String.mk (List.replicate 180 'x')] []
    (AstSmells.mk 0 0 0 0 0) (by decide)

/-- C10 (confirmed): the non-Python text-heuristic path reports at least one
line of code for every source text — an empty file is replaced by one empty
line — whereas the Python path stores radon's raw `loc` verbatim and hence
reports `0` when radon reports `0` (as it does for an empty file). -/
theorem non_python_min_loc :
    (∀ srcLines : List String, 1 ≤ nonPythonLoc srcLines)
    ∧ nonPythonLoc ([] : List String) = 1
    ∧ pythonLinesOfCode (RadonRaw.mk 0 0 0) = 0 := by
  refine ⟨?_, rfl, rfl⟩
  intro src
  unfold nonPythonLoc splitlinesOrBlank
  split_ifs with h
  · simp
  · exact List.length_pos.mpr h

end TechDebt
